import Mathlib

/-!
Verification development for the financial-dashboard repository.

The data-acquisition layer (`utils.load_data`) and the metric computations
of the view pages (total return, RSI, MACD, indexed comparison) are embedded
shallowly: pandas DataFrames become lists of named columns of rationals,
the upstream `yfinance` calls become an oracle value (`Fetch`) supplied as an
argument, and IEEE-754 special values (NaN, plus and minus infinity), which
matter only for the RSI division, are modelled by an explicit inductive type.
-/

namespace FinDash

/-- Model of a pandas DataFrame as produced by the upstream calls in
`utils.load_data`.  `flat` is a frame with a plain column index (each column
a name with its values); `multi` is a frame whose columns carry a two-level
MultiIndex, level 0 the field name (Open, Close, ...) and level 1 the ticker,
as returned by a batch download. -/
inductive DF where
  | flat (cols : List (String × List ℚ)) : DF
  | multi (cols : List ((String × String) × List ℚ)) : DF
deriving DecidableEq

/-- Model of `pd.DataFrame()`, the frame returned on the failure paths of
`load_data`. -/
def DF.emptyDF : DF := DF.flat []

/-- Model of the pandas `.empty` property: a frame is empty when it holds no
cells (no columns, or all columns without rows). -/
def DF.empty : DF → Bool
  | .flat cols => cols.all (fun c => c.2.isEmpty)
  | .multi cols => cols.all (fun c => c.2.isEmpty)

/-- String column labels of a frame.  A MultiIndex-columned frame has tuple
labels, none of which equals a plain string, so membership tests such as
`"Adj Close" in df.columns` see no string labels there. -/
def DF.colStrings : DF → List String
  | .flat cols => cols.map (fun c => c.1)
  | .multi _ => []

/-- Values of the first column carrying the given name (model of `df[name]`
for a flat frame). -/
def getCol (name : String) (cols : List (String × List ℚ)) : Option (List ℚ) :=
  (cols.find? (fun c => c.1 == name)).map (fun c => c.2)

/-- Model of the MultiIndex-flattening step of `load_data` (lines 51-56 of
`utils.py`): a flat frame keeps its columns; a MultiIndex frame is collapsed
with `df.xs(key=ticker, axis=1, level=1)` when the ticker occurs among the
level-1 labels, and with `df.columns.droplevel(1)` otherwise.  The result is
always a flat column list. -/
def flattenCols (ticker : String) : DF → List (String × List ℚ)
  | .flat cols => cols
  | .multi cols =>
      if ticker ∈ cols.map (fun c => c.1.2) then
        (cols.filter (fun c => c.1.2 == ticker)).map (fun c => (c.1.1, c.2))
      else
        cols.map (fun c => (c.1.1, c.2))

/-- Model of the Adj-Close guarantee step of `load_data` (lines 58-60 of
`utils.py`): `if "Adj Close" not in df.columns and "Close" in df.columns:
df["Adj Close"] = df["Close"]` — the new column is appended with the values
of the `Close` column. -/
def ensureAdjClose (cols : List (String × List ℚ)) : List (String × List ℚ) :=
  if "Adj Close" ∉ cols.map (fun c => c.1) ∧ "Close" ∈ cols.map (fun c => c.1) then
    cols ++ [("Adj Close", (getCol "Close" cols).getD [])]
  else
    cols

/-- Outcome of one upstream call (`yf.download` or `yf.Ticker(...).history`):
either an exception is thrown or a DataFrame comes back. -/
inductive Fetch where
  | raises : Fetch
  | ok : DF → Fetch
deriving DecidableEq

/-- Normalization applied by `load_data` to a non-empty retrieved frame:
flatten a MultiIndex, then guarantee an `Adj Close` column. -/
def finalize (ticker : String) (df : DF) : DF :=
  DF.flat (ensureAdjClose (flattenCols ticker df))

/-- Model of `utils.load_data`, instrumented: the second component records
whether the fallback retrieval (`yf.Ticker(ticker).history`) was invoked.
The control flow follows `utils.py` lines 21-62 exactly: an empty ticker
returns an empty frame; an exception from the primary download is reported
and an empty frame is returned; the fallback runs only when the primary
returned an empty frame without raising; a still-empty frame is returned
as is; otherwise the frame is flattened and given an `Adj Close` column. -/
def load_dataRun (ticker : String) (primary fallback : Fetch) : DF × Bool :=
  if ticker = "" then (DF.emptyDF, false)
  else
    match primary with
    | .raises => (DF.emptyDF, false)
    | .ok df0 =>
        if df0.empty then
          match fallback with
          | .raises => (DF.emptyDF, true)
          | .ok df1 =>
              if df1.empty then (df1, true)
              else (finalize ticker df1, true)
        else (finalize ticker df0, false)

/-- Model of `utils.load_data` as seen by its callers: the returned frame. -/
def load_data (ticker : String) (primary fallback : Fetch) : DF :=
  (load_dataRun ticker primary fallback).1

example : load_data "AAPL" Fetch.raises (Fetch.ok (DF.flat [("Close", [1])])) = DF.emptyDF := by
  decide

example :
    load_data "AAPL" (Fetch.ok DF.emptyDF) (Fetch.ok (DF.flat [("Close", [2])]))
      = DF.flat [("Close", [2]), ("Adj Close", [2])] := by
  decide

/-! Cache model.  `load_data` is decorated with `@st.cache_data(ttl=60*60)`:
Streamlit memoizes the function on its argument tuple, stores the returned
value with a creation time, serves a stored value while it is younger than
the TTL, and otherwise calls the function and stores whatever it returns.
A raised exception is not stored, but `load_data` never raises: its failure
paths return an (empty) DataFrame, which is a normal return value. -/

/-- Cache key: the argument tuple (ticker, start, end), dates as day numbers. -/
abbrev CacheKey := String × Nat × Nat

/-- State of the `st.cache_data` store: entries (key, value, creation time),
most recent first. -/
structure CacheState where
  entries : List (CacheKey × DF × Nat)
deriving DecidableEq

/-- TTL of the `load_data` cache: `ttl=60*60` seconds. -/
def cacheTTL : Nat := 60 * 60

/-- Live lookup: the most recent entry for the key, provided it is younger
than the TTL. -/
def lookupLive (c : CacheState) (now : Nat) (k : CacheKey) : Option DF :=
  match c.entries.find? (fun e => e.1 == k) with
  | some e => if now - e.2.2 < cacheTTL then some e.2.1 else none
  | none => none

/-- Outcome of one cached call: the frame handed to the caller, the cache
state afterwards, and whether the wrapped function body actually ran
(that is, whether upstream was contacted). -/
structure LoadResult where
  df : DF
  cache : CacheState
  ranUpstream : Bool
deriving DecidableEq

/-- Model of calling the `@st.cache_data`-wrapped `load_data`: a live cached
value is returned without running the body; otherwise the body runs and its
return value — whatever it is — is stored under the key with the current
time. -/
def cachedLoad (c : CacheState) (now : Nat) (ticker : String) (start finish : Nat)
    (primary fallback : Fetch) : LoadResult :=
  match lookupLive c now (ticker, start, finish) with
  | some df => ⟨df, c, false⟩
  | none =>
      let df := load_data ticker primary fallback
      ⟨df, ⟨((ticker, start, finish), df, now) :: c.entries⟩, true⟩

/-! Metric definitions from the view pages. -/

/-- Model of the total-return computation of `pages/2 Key_Statistics.py`
(line 53): `(prices.iloc[-1] / prices.iloc[0] - 1) * 100`.  The page reaches
this line only with a non-empty price series; on an empty series `iloc`
would raise, modelled by `none`. -/
def total_return (prices : List ℚ) : Option ℚ :=
  match prices with
  | [] => none
  | p :: ps => some (((p :: ps).getLastD 0 / p - 1) * 100)

/-- Recursive exponential smoothing: given the previous output value, emit
`(1 - a) * prev + a * x` for each further observation. -/
def emaFrom (a : ℚ) : ℚ → List ℚ → List ℚ
  | _, [] => []
  | prev, x :: xs =>
      let y := (1 - a) * prev + a * x
      y :: emaFrom a y xs

/-- Model of `series.ewm(span=n, adjust=False).mean()`: seeded by the first
value, then recursive smoothing with factor `2 / (span + 1)`. -/
def ewm (span : Nat) (xs : List ℚ) : List ℚ :=
  match xs with
  | [] => []
  | x :: rest => x :: emaFrom (2 / ((span : ℚ) + 1)) x rest

/-- Model of `df["MACD"] = ema12 - ema26` with `ema12 = prices.ewm(span=12,
adjust=False).mean()` and `ema26 = prices.ewm(span=26, adjust=False).mean()`
(`pages/4 Technical Analysis.py`, lines 95-97). -/
def macdLine (prices : List ℚ) : List ℚ :=
  List.zipWith (fun a b => a - b) (ewm 12 prices) (ewm 26 prices)

/-- Model of `df["Signal"] = df["MACD"].ewm(span=9, adjust=False).mean()`. -/
def signalLine (prices : List ℚ) : List ℚ :=
  ewm 9 (macdLine prices)

/-- Model of `df["Hist"] = df["MACD"] - df["Signal"]`. -/
def histLine (prices : List ℚ) : List ℚ :=
  List.zipWith (fun a b => a - b) (macdLine prices) (signalLine prices)

/-! Float model for the RSI computation.  The RSI pipeline of
`pages/4 Technical Analysis.py` divides two rolling means elementwise; in
pandas these are IEEE-754 doubles, so a positive value divided by zero gives
positive infinity and `0.0 / 0.0` gives NaN.  Every arithmetic operation the
pipeline performs on finite values is exact on rationals, so floats are
modelled as rationals extended with NaN and the two infinities, with the
IEEE special-value rules for the operations used. -/

/-- Extended value: NaN, plus or minus infinity, or a finite (rational)
number. -/
inductive PFloat where
  | nan : PFloat
  | inf : PFloat
  | ninf : PFloat
  | val : ℚ → PFloat
deriving DecidableEq

namespace PFloat

/-- IEEE addition on extended values (no rounding on the finite case). -/
def add : PFloat → PFloat → PFloat
  | nan, _ => nan
  | _, nan => nan
  | inf, ninf => nan
  | ninf, inf => nan
  | inf, _ => inf
  | _, inf => inf
  | ninf, _ => ninf
  | _, ninf => ninf
  | val a, val b => val (a + b)

/-- IEEE negation on extended values. -/
def neg : PFloat → PFloat
  | nan => nan
  | inf => ninf
  | ninf => inf
  | val a => val (-a)

/-- IEEE subtraction on extended values. -/
def sub (x y : PFloat) : PFloat := add x (neg y)

/-- IEEE division on extended values: a nonzero finite value divided by
(positive) zero gives a signed infinity, zero by zero gives NaN, a finite
value by an infinity gives zero. -/
def div : PFloat → PFloat → PFloat
  | nan, _ => nan
  | _, nan => nan
  | inf, inf => nan
  | inf, ninf => nan
  | ninf, inf => nan
  | ninf, ninf => nan
  | inf, val b => if b < 0 then ninf else inf
  | ninf, val b => if b < 0 then inf else ninf
  | val _, inf => val 0
  | val _, ninf => val 0
  | val a, val b =>
      if b = 0 then (if a = 0 then nan else if 0 < a then inf else ninf)
      else val (a / b)

end PFloat

/-- Model of `prices.diff()`: the first position is NaN (no prior value),
then each position holds the difference to the previous price. -/
def diffs : List ℚ → List PFloat
  | [] => []
  | p :: ps => PFloat.nan :: List.zipWith (fun b a => PFloat.val (b - a)) ps (p :: ps)

/-- Model of `delta.clip(lower=0)`: NaN passes through, finite values are
floored at zero.  (Infinities do not arise from `diff` on finite prices.) -/
def clipLower0 : PFloat → PFloat
  | PFloat.nan => PFloat.nan
  | PFloat.inf => PFloat.inf
  | PFloat.ninf => PFloat.val 0
  | PFloat.val q => PFloat.val (max q 0)

/-- Model of `(-delta.clip(upper=0))`: clip above at zero, then negate. -/
def negClipUpper0 : PFloat → PFloat
  | PFloat.nan => PFloat.nan
  | PFloat.inf => PFloat.val 0
  | PFloat.ninf => PFloat.inf
  | PFloat.val q => PFloat.val (-(min q 0))

/-- Sum of the finite values of a window (used only on windows that hold no
NaN, where every element is finite). -/
def sumVals : List PFloat → ℚ
  | [] => 0
  | PFloat.val q :: xs => q + sumVals xs
  | _ :: xs => sumVals xs

/-- Model of `series.rolling(w).mean()` with the default
`min_periods = w`: position `i` is NaN while fewer than `w` observations
exist or while the window of the last `w` values contains a NaN; otherwise
it is the exact mean of the window. -/
def rollMean (w : Nat) (xs : List PFloat) : List PFloat :=
  (List.range xs.length).map (fun i =>
    if i + 1 < w then PFloat.nan
    else
      let win := (xs.take (i + 1)).drop (i + 1 - w)
      if win.contains PFloat.nan then PFloat.nan
      else PFloat.val (sumVals win / (w : ℚ)))

/-- Model of `gain = delta.clip(lower=0).rolling(rsi_win).mean()`. -/
def gainSeries (w : Nat) (prices : List ℚ) : List PFloat :=
  rollMean w ((diffs prices).map clipLower0)

/-- Model of `loss = (-delta.clip(upper=0)).rolling(rsi_win).mean()`. -/
def lossSeries (w : Nat) (prices : List ℚ) : List PFloat :=
  rollMean w ((diffs prices).map negClipUpper0)

/-- Model of `rs = gain / loss` (elementwise IEEE division). -/
def rsSeries (w : Nat) (prices : List ℚ) : List PFloat :=
  List.zipWith PFloat.div (gainSeries w prices) (lossSeries w prices)

/-- Model of `rsi_series = 100 - 100 / (1 + rs)` (elementwise). -/
def rsi_series (w : Nat) (prices : List ℚ) : List PFloat :=
  (rsSeries w prices).map (fun x =>
    PFloat.sub (PFloat.val 100) (PFloat.div (PFloat.val 100) (PFloat.add (PFloat.val 1) x)))

/-! Indexed-comparison model from `pages/3 Comparison_Dashboard.py`.  The
combined frame is a list of rows (ticker, date, price); the page sorts it by
date, takes each ticker's first price, and computes
`Indexed = Price / start_prices[Ticker] * 100` for every row. -/

/-- One row of the combined comparison frame. -/
structure Row where
  ticker : String
  date : Nat
  price : ℚ
deriving DecidableEq

/-- Insert a row into a date-sorted list, keeping earlier rows first on
ties. -/
def insertByDate (r : Row) : List Row → List Row
  | [] => [r]
  | x :: xs => if r.date < x.date then r :: x :: xs else x :: insertByDate r xs

/-- Model of `combined_df.sort_values("Date")`. -/
def sortByDate (rows : List Row) : List Row :=
  rows.foldr insertByDate []

/-- Model of `combined_df.sort_values("Date").groupby("Ticker")["Price"]
.first()` looked up at one ticker: the price of the first row for that
ticker in date order. -/
def startPrice (rows : List Row) (t : String) : Option ℚ :=
  ((sortByDate rows).find? (fun x => x.ticker == t)).map (fun x => x.price)

/-- Model of the `Indexed` value of one row:
`r["Price"] / start_prices[r["Ticker"]] * 100`. -/
def indexedValue (rows : List Row) (r : Row) : Option ℚ :=
  (startPrice rows r.ticker).map (fun p0 => r.price / p0 * 100)

/-! Theorems settling the claims. -/

/-- C1, counterexample: with a primary download that raises and a fallback
that would return data, `load_data` returns the empty frame immediately and
the fallback is never invoked — refuting the claim that the fallback is
still attempted after a primary exception. -/
theorem c1_counterexample :
    (load_dataRun "AAPL" Fetch.raises (Fetch.ok (DF.flat [("Close", [3])]))).2 = false
      ∧ (DF.flat [("Close", [3])]).empty = false
      ∧ load_data "AAPL" Fetch.raises (Fetch.ok (DF.flat [("Close", [3])])) = DF.emptyDF := by
  refine ⟨rfl, rfl, rfl⟩

/-- C1, amended: when the primary download raises, `load_data` reports the
error and returns an empty frame immediately, without attempting the
fallback; the fallback runs exactly when the ticker is non-empty and the
primary returned an empty frame without raising. -/
theorem c1_primary_exception_returns_immediately (t : String) (f : Fetch) (d : DF) :
    load_dataRun t Fetch.raises f = (DF.emptyDF, false)
      ∧ (load_dataRun t (Fetch.ok d) f).2 = (!(t == "") && d.empty) := by
  constructor
  · unfold load_dataRun
    by_cases h : t = "" <;> simp [h]
  · unfold load_dataRun
    by_cases h : t = ""
    · simp [h]
    · cases hd : d.empty
      · simp [h, hd]
      · cases f
        · simp [h, hd]
        · rename_i d1
          cases h1 : d1.empty <;> simp [h, hd, h1]

/-- C2, counterexample: an upstream transport error and a legitimate
empty result produce identical values for the caller — the same empty
frame — so the two failure modes cannot be told apart from the result of
`load_data`; no typed `NoDataError` or `UpstreamError` exists. -/
theorem c2_counterexample :
    load_data "AAPL" Fetch.raises (Fetch.ok DF.emptyDF)
        = load_data "AAPL" (Fetch.ok DF.emptyDF) (Fetch.ok DF.emptyDF)
      ∧ load_data "AAPL" Fetch.raises (Fetch.ok DF.emptyDF) = DF.emptyDF := by
  refine ⟨rfl, rfl⟩

/-- C2, amended: `load_data` collapses both failure modes to the same
observable outcome: an upstream exception and an empty result from both
strategies each yield the empty frame, with no error value a caller could
use to distinguish them. -/
theorem c2_failure_modes_indistinguishable (t : String) (f : Fetch) :
    load_data t Fetch.raises f = DF.emptyDF
      ∧ load_data t (Fetch.ok DF.emptyDF) (Fetch.ok DF.emptyDF) = DF.emptyDF := by
  unfold load_data load_dataRun
  by_cases h : t = "" <;> simp [h, DF.empty, DF.emptyDF]

/-- C10: the public interface of `load_data` is total — the embedding is a
function into DataFrames, and each failure path (empty ticker, primary
exception, fallback exception after an empty primary, both strategies
empty) yields an empty frame rather than an exception. -/
theorem c10_load_data_total (t : String) (p f : Fetch) (d d' : DF) :
    load_data "" p f = DF.emptyDF
      ∧ load_data t Fetch.raises f = DF.emptyDF
      ∧ (d.empty = true → load_data t (Fetch.ok d) Fetch.raises = DF.emptyDF)
      ∧ (d.empty = true → d'.empty = true →
          (load_data t (Fetch.ok d) (Fetch.ok d')).empty = true) := by
  refine ⟨rfl, ?_, fun hd => ?_, fun hd hd' => ?_⟩
  · unfold load_data load_dataRun
    by_cases h : t = "" <;> simp [h]
  · unfold load_data load_dataRun
    by_cases h : t = "" <;> simp [h, hd]
  · unfold load_data load_dataRun
    by_cases h : t = ""
    · simp [h]
      rfl
    · simp [h, hd, hd']

/-- C10, witness: the failure-path clauses at concrete inputs. -/
theorem c10_witness :
    load_data "AAPL" (Fetch.ok DF.emptyDF) Fetch.raises = DF.emptyDF
      ∧ (load_data "AAPL" (Fetch.ok DF.emptyDF) (Fetch.ok DF.emptyDF)).empty = true :=
  ⟨(c10_load_data_total "AAPL" Fetch.raises Fetch.raises DF.emptyDF DF.emptyDF).2.2.1 rfl,
   (c10_load_data_total "AAPL" Fetch.raises Fetch.raises DF.emptyDF DF.emptyDF).2.2.2 rfl rfl⟩

/-- C3, counterexample: starting from an empty cache, a failing fetch (the
primary raises, the fallback has nothing) returns the empty frame and
WRITES it into the cache; a second call with the same key shortly after,
even though upstream would now succeed, is served the cached empty frame
and never contacts upstream — refuting the claim that a failed fetch
writes nothing and that the next call retries upstream. -/
theorem c3_counterexample :
    (cachedLoad ⟨[]⟩ 0 "AAPL" 100 200 Fetch.raises (Fetch.ok DF.emptyDF)).df = DF.emptyDF
      ∧ (cachedLoad ⟨[]⟩ 0 "AAPL" 100 200 Fetch.raises (Fetch.ok DF.emptyDF)).cache
          ≠ CacheState.mk []
      ∧ (cachedLoad
            (cachedLoad ⟨[]⟩ 0 "AAPL" 100 200 Fetch.raises (Fetch.ok DF.emptyDF)).cache
            10 "AAPL" 100 200
            (Fetch.ok (DF.flat [("Close", [3])]))
            (Fetch.ok (DF.flat [("Close", [3])]))).ranUpstream = false
      ∧ (cachedLoad
            (cachedLoad ⟨[]⟩ 0 "AAPL" 100 200 Fetch.raises (Fetch.ok DF.emptyDF)).cache
            10 "AAPL" 100 200
            (Fetch.ok (DF.flat [("Close", [3])]))
            (Fetch.ok (DF.flat [("Close", [3])]))).df = DF.emptyDF := by
  refine ⟨rfl, by decide, rfl, rfl⟩

/-- C3, amended: every cache-miss call stores its returned frame — the
empty frame of a failed fetch included — under the argument key, and a
live cached entry is served unchanged without running the fetch body. -/
theorem c3_cache_stores_every_return (c : CacheState) (now : Nat) (t : String)
    (s e : Nat) (p f : Fetch) (d : DF) :
    (lookupLive c now (t, s, e) = none →
        cachedLoad c now t s e p f
          = ⟨load_data t p f, ⟨((t, s, e), load_data t p f, now) :: c.entries⟩, true⟩)
      ∧ (lookupLive c now (t, s, e) = some d →
          cachedLoad c now t s e p f = ⟨d, c, false⟩) := by
  constructor <;> intro h <;> simp [cachedLoad, h]

/-- C3, witness: the amended theorem at concrete inputs — a miss on the
empty cache stores the failure result, and the stored entry is then served
without a retry. -/
theorem c3_witness :
    cachedLoad ⟨[]⟩ 0 "A" 1 2 Fetch.raises Fetch.raises
        = ⟨load_data "A" Fetch.raises Fetch.raises,
            ⟨[(("A", 1, 2), load_data "A" Fetch.raises Fetch.raises, 0)]⟩, true⟩
      ∧ cachedLoad ⟨[(("A", 1, 2), DF.emptyDF, 0)]⟩ 10 "A" 1 2 Fetch.raises Fetch.raises
          = ⟨DF.emptyDF, ⟨[(("A", 1, 2), DF.emptyDF, 0)]⟩, false⟩ :=
  ⟨(c3_cache_stores_every_return ⟨[]⟩ 0 "A" 1 2 Fetch.raises Fetch.raises DF.emptyDF).1
      (by decide),
   (c3_cache_stores_every_return ⟨[(("A", 1, 2), DF.emptyDF, 0)]⟩ 10 "A" 1 2
      Fetch.raises Fetch.raises DF.emptyDF).2 (by decide)⟩

/-- C5, counterexample: on a single-point series the total-return
computation does not fail — it evaluates to a defined value, 0. -/
theorem c5_counterexample :
    total_return [5] = some 0 ∧ total_return [5] ≠ none := by
  have h : total_return [5] = some 0 := by norm_num [total_return]
  exact ⟨h, by simp [h]⟩

/-- C5, amended: the total-return computation evaluates
`(last / first - 1) * 100` on every non-empty series — a single-point
series yields 0, not an error; only the empty series has no value (the
page guards it with a stop before this line), and no
`InsufficientDataError` exists. -/
theorem c5_total_return_defined_on_singleton (p : ℚ) (ps : List ℚ) :
    total_return (p :: ps) = some (((p :: ps).getLastD 0 / p - 1) * 100)
      ∧ total_return ([] : List ℚ) = none
      ∧ (p ≠ 0 → total_return [p] = some 0) := by
  refine ⟨rfl, rfl, fun hp => ?_⟩
  simp [total_return, div_self hp]

/-- C5, witness: the amended theorem at a concrete one-point series. -/
theorem c5_witness : total_return [(5 : ℚ)] = some 0 :=
  (c5_total_return_defined_on_singleton 5 []).2.2 (by norm_num)

/-- C6: the MultiIndex-flattening step selects the ticker's own column
group (keeping the level-0 field names and the column values) whenever the
ticker occurs among the level-1 labels, drops the level-1 (ticker) grouping
level otherwise, leaves a flat frame's columns unchanged, and is the
normalization `load_data` applies to every non-empty retrieved frame. -/
theorem c6_flatten_multiindex (t : String) (cols : List ((String × String) × List ℚ))
    (fc : List (String × List ℚ)) (f : Fetch) :
    (t ∈ cols.map (fun c => c.1.2) →
        flattenCols t (DF.multi cols)
          = (cols.filter (fun c => c.1.2 == t)).map (fun c => (c.1.1, c.2)))
      ∧ (t ∉ cols.map (fun c => c.1.2) →
          flattenCols t (DF.multi cols) = cols.map (fun c => (c.1.1, c.2)))
      ∧ flattenCols t (DF.flat fc) = fc
      ∧ ((DF.multi cols).empty = false → t ≠ "" →
          load_data t (Fetch.ok (DF.multi cols)) f
            = DF.flat (ensureAdjClose (flattenCols t (DF.multi cols)))) := by
  refine ⟨fun h => ?_, fun h => ?_, rfl, fun hne ht => ?_⟩
  · simp [flattenCols, h]
  · simp [flattenCols, h]
  · unfold load_data load_dataRun
    simp [ht, hne, finalize]

/-- C6, witness: the three flattening behaviors at concrete frames. -/
theorem c6_witness :
    flattenCols "A" (DF.multi [(("Close", "A"), [1]), (("Close", "B"), [2])])
        = [("Close", [1])]
      ∧ flattenCols "C" (DF.multi [(("Close", "B"), [2])]) = [("Close", [2])]
      ∧ load_data "A" (Fetch.ok (DF.multi [(("Close", "A"), [1])])) Fetch.raises
          = DF.flat (ensureAdjClose (flattenCols "A" (DF.multi [(("Close", "A"), [1])]))) := by
  refine ⟨?_, ?_,
    (c6_flatten_multiindex "A" [(("Close", "A"), [1])] [] Fetch.raises).2.2.2
      (by decide) (by decide)⟩
  · have h := (c6_flatten_multiindex "A"
      [(("Close", "A"), [1]), (("Close", "B"), [2])] [] Fetch.raises).1 (by decide)
    simpa using h
  · have h := (c6_flatten_multiindex "C" [(("Close", "B"), [2])] [] Fetch.raises).2.1
      (by decide)
    simpa using h

/-- Helper for C7: the Adj-Close guarantee step leaves no frame that has a
Close column but lacks Adj Close. -/
theorem ensureAdjClose_close_mem (cols : List (String × List ℚ))
    (h : "Close" ∈ (ensureAdjClose cols).map (fun c => c.1)) :
    "Adj Close" ∈ (ensureAdjClose cols).map (fun c => c.1) := by
  unfold ensureAdjClose at h ⊢
  by_cases hc : "Adj Close" ∉ cols.map (fun c => c.1) ∧ "Close" ∈ cols.map (fun c => c.1)
  · simp [hc]
  · rw [if_neg hc] at h ⊢
    push_neg at hc
    by_cases ha : "Adj Close" ∈ cols.map (fun c => c.1)
    · exact ha
    · exact absurd h (hc ha)

/-- C7, counterexample: a non-empty upstream frame that carries neither a
Close nor an Adj Close column passes through `load_data` unchanged, so the
caller observes a non-empty output with `Adj Close` absent — refuting the
unconditional claim that consumers never observe such an output. -/
theorem c7_counterexample :
    (load_data "A" (Fetch.ok (DF.flat [("Volume", [1])])) (Fetch.ok DF.emptyDF)).empty = false
      ∧ "Adj Close" ∉
          (load_data "A" (Fetch.ok (DF.flat [("Volume", [1])])) (Fetch.ok DF.emptyDF)).colStrings := by
  refine ⟨rfl, by decide⟩

/-- C7, amended: every non-empty frame returned by `load_data` that has a
Close column also has an Adj Close column, and when the Adj-Close guarantee
step adds the column it carries exactly the values of the Close column; a
frame lacking Close entirely is passed through without a backfill. -/
theorem c7_adjclose_backfilled_when_close_present (t : String) (p f : Fetch)
    (cols : List (String × List ℚ)) :
    ((load_data t p f).empty = false →
        "Close" ∈ (load_data t p f).colStrings →
        "Adj Close" ∈ (load_data t p f).colStrings)
      ∧ ("Adj Close" ∉ cols.map (fun c => c.1) → "Close" ∈ cols.map (fun c => c.1) →
          getCol "Adj Close" (ensureAdjClose cols) = getCol "Close" cols) := by
  constructor
  · intro hne hc
    unfold load_data load_dataRun at hne hc ⊢
    by_cases h : t = ""
    · simp [h, DF.emptyDF, DF.colStrings] at hc
    · rw [if_neg h] at hne hc ⊢
      cases p with
      | raises => simp [DF.emptyDF, DF.colStrings] at hc
      | ok d0 =>
          cases hd0 : d0.empty with
          | false =>
              simp only [hd0, Bool.false_eq_true, if_neg] at hc ⊢
              simp only [if_neg (by simp : ¬False)] at hc ⊢
              exact ensureAdjClose_close_mem _ (by simpa [finalize, DF.colStrings] using hc)
          | true =>
              simp only [hd0, if_pos] at hne hc ⊢
              cases f with
              | raises => simp [DF.emptyDF, DF.colStrings] at hc
              | ok d1 =>
                  cases hd1 : d1.empty with
                  | true => simp [hd1] at hne
                  | false =>
                      simp only [hd1, Bool.false_eq_true, if_neg] at hc ⊢
                      simp only [if_neg (by simp : ¬False)] at hc ⊢
                      exact ensureAdjClose_close_mem _
                        (by simpa [finalize, DF.colStrings] using hc)
  · intro hA hC
    unfold ensureAdjClose
    rw [if_pos ⟨hA, hC⟩]
    have hnone : cols.find? (fun c => c.1 == "Adj Close") = none := by
      rw [List.find?_eq_none]
      intro x hx
      simp only [beq_iff_eq]
      intro hx1
      exact hA (by simpa [← hx1] using List.mem_map_of_mem (fun c => c.1) hx)
    have hsome : (cols.find? (fun c => c.1 == "Close")).isSome := by
      rw [List.find?_isSome]
      obtain ⟨x, hx, hx1⟩ := List.mem_map.mp hC
      exact ⟨x, hx, by simp [hx1]⟩
    obtain ⟨u, hu⟩ := Option.isSome_iff_exists.mp hsome
    unfold getCol
    rw [List.find?_append, hnone, hu]
    simp [hu]

/-- C7, witness: the amended theorem at a concrete frame that has a Close
column and no Adj Close column. -/
theorem c7_witness :
    "Adj Close" ∈
        (load_data "A" (Fetch.ok (DF.flat [("Close", [2])])) Fetch.raises).colStrings
      ∧ getCol "Adj Close" (ensureAdjClose [("Close", [2])]) = getCol "Close" [("Close", [2])] :=
  ⟨(c7_adjclose_backfilled_when_close_present "A" (Fetch.ok (DF.flat [("Close", [2])]))
      Fetch.raises []).1 rfl (by decide),
   (c7_adjclose_backfilled_when_close_present "A" Fetch.raises Fetch.raises
      [("Close", [2])]).2 (by decide) (by decide)⟩

/-- Helper: recursive exponential smoothing preserves the series length. -/
theorem length_emaFrom (a prev : ℚ) (xs : List ℚ) :
    (emaFrom a prev xs).length = xs.length := by
  induction xs generalizing prev with
  | nil => rfl
  | cons x rest ih => simp [emaFrom, ih]

/-- Helper: `ewm` preserves the series length. -/
theorem length_ewm (s : Nat) (xs : List ℚ) : (ewm s xs).length = xs.length := by
  cases xs with
  | nil => rfl
  | cons x rest => simp [ewm, length_emaFrom]

/-- C8: the MACD computation uses the fixed spans 12/26/9 — `macdLine` is
the pointwise difference of `ewm 12` and `ewm 26` of the prices,
`signalLine` is `ewm 9` of the MACD line, all three derived series are as
long as the price series, and at every position the histogram equals the
MACD line minus the signal line exactly. -/
theorem c8_macd_hist_exact (ps : List ℚ) (i : Nat) (m s : ℚ) :
    ((macdLine ps).length = ps.length ∧ (signalLine ps).length = ps.length
        ∧ (histLine ps).length = ps.length)
      ∧ ((macdLine ps).get? i = some m → (signalLine ps).get? i = some s →
          (histLine ps).get? i = some (m - s)) := by
  have hm : (macdLine ps).length = ps.length := by
    simp [macdLine, List.length_zipWith, length_ewm]
  have hs : (signalLine ps).length = ps.length := by
    simp [signalLine, length_ewm, hm]
  refine ⟨⟨hm, hs, ?_⟩, fun h1 h2 => ?_⟩
  · simp [histLine, List.length_zipWith, hm, hs]
  · simp only [histLine]
    exact (List.get?_zipWith_eq_some _ _ _ _ _).mpr ⟨m, s, h1, h2, rfl⟩

/-- C8, witness: the histogram identity at the head of a concrete
two-point series, where both the MACD line and the signal line start at
zero. -/
theorem c8_witness : (histLine [1, 2]).get? 0 = some (0 - 0) :=
  (c8_macd_hist_exact [1, 2] 0 0 0).2
    (by norm_num [macdLine, ewm, emaFrom])
    (by norm_num [signalLine, macdLine, ewm, emaFrom])

/-- C9: in the indexed comparison, each ticker is normalized to its own
first price in date order inside the selected range: whichever row comes
first for a ticker after sorting by date receives the indexed value
`price / startPrice * 100 = 100` exactly, provided that first price is
nonzero. -/
theorem c9_each_ticker_starts_at_100 (rows : List Row) (t : String) (r : Row)
    (h : (sortByDate rows).find? (fun x => x.ticker == t) = some r)
    (hp : r.price ≠ 0) :
    indexedValue rows r = some 100 := by
  have ht : r.ticker = t := by
    have hpred := List.find?_some h
    simpa using hpred
  unfold indexedValue startPrice
  rw [ht, h]
  simp [div_self hp]

/-- C9, witness: two rows of one ticker with distinct dates; the row with
the earlier date is first after sorting and its indexed value is 100. -/
theorem c9_witness :
    indexedValue [⟨"A", 1, 4⟩, ⟨"A", 0, 2⟩] ⟨"A", 0, 2⟩ = some 100 :=
  c9_each_ticker_starts_at_100 [⟨"A", 1, 4⟩, ⟨"A", 0, 2⟩] "A" ⟨"A", 0, 2⟩
    (by decide) (by norm_num)

/-- C4: evaluation of the RSI pipeline at a strictly increasing price
series (window 7, prices 1..9).  At position 7 the rolling mean loss is
exactly zero, and the RSI value the code produces there is the finite
value 100 — not NaN: the elementwise division yields positive infinity
and `100 - 100 / (1 + inf)` collapses to 100, diverging from the
specified undefined/NaN outcome. -/
theorem c4_rsi_collapses_to_100_not_nan :
    (lossSeries 7 [1, 2, 3, 4, 5, 6, 7, 8, 9]).get? 7 = some (PFloat.val 0)
      ∧ (rsi_series 7 [1, 2, 3, 4, 5, 6, 7, 8, 9]).get? 7 = some (PFloat.val 100)
      ∧ PFloat.val 100 ≠ PFloat.nan := by
  refine ⟨?_, ?_, by simp⟩
  · norm_num [lossSeries, rollMean, diffs, negClipUpper0, sumVals, List.range,
      List.range.loop, min_def]
  · norm_num [rsi_series, rsSeries, gainSeries, lossSeries, rollMean, diffs, clipLower0,
      negClipUpper0, sumVals, PFloat.div, PFloat.add, PFloat.sub, PFloat.neg, List.range,
      List.range.loop, max_def, min_def]
    norm_num [show PFloat.nan ≠ PFloat.val 1 from by simp,
      show PFloat.nan ≠ PFloat.val 0 from by simp]

end FinDash
